import Mathlib

/-!
Verification of the pibox server daemon (embedded-device orchestration server).

Shallow embedding of the Rust sources:
  * `pibox-core/src/auth.rs`      — JWT token authority (`JwtAuth`);
  * `pibox-core/src/protocol.rs`  — wire protocol types and the `base64_bytes`
                                    serialization helper;
  * `pibox-server/src/state.rs`   — shared server state (`AppState`);
  * `pibox-server/src/load.rs`    — load probe hint generation;
  * `pibox-server/src/handlers.rs`— WebSocket session handling.

Modelling conventions:
  * `f32` CPU percentages become `ℚ` (the thresholds 80/95 are exact and no
    float rounding is relevant to the verified properties);
  * `u32`/`u64` counters become `ℕ` (no operation here can overflow `u32`;
    the only subtraction is explicitly guarded in the source);
  * byte vectors (`Vec<u8>`) become `List ℕ` with a `< 256` side condition;
  * system time (`SystemTime::now`) is passed explicitly as a `now : ℕ`
    parameter (Unix seconds);
  * a tokio `broadcast` channel is modelled by the list of its subscribers'
    pending queues; sending appends to every queue, dropping the oldest
    element when a queue is at capacity (the lagged-receiver behaviour);
  * the HMAC signature of the `jsonwebtoken` library is modelled by tagging
    a token with the numeric identity of the key that signed it: a decode
    succeeds exactly when the tags match, which is the guarantee HMAC
    provides;
  * the external filebrowser backend is an oracle: handlers take the
    backend call's result as an explicit `Except` argument;
  * awaiting a WebSocket stream is modelled by the list of messages the
    stream will deliver; the 30 s authentication timeout and the peer
    closing the stream both surface as the end of that list.
-/

/-! ## Protocol data model (`pibox-core/src/protocol.rs`, `auth.rs`) -/

/-- `TokenType` from `auth.rs`: access or refresh. -/
inductive TokenType where
  | access
  | refresh
deriving DecidableEq, Repr

/-- JWT claims embedded in tokens (`Claims` in `auth.rs`). -/
structure Claims where
  sub : String
  exp : ℕ
  iat : ℕ
  token_type : TokenType
  device_id : Option String
deriving DecidableEq, Repr

/-- A signed token. The `key` field models the HMAC signature: it records
which secret signed the token, and decoding with a key succeeds exactly when
the keys agree. -/
structure SignedToken where
  claims : Claims
  key : ℕ
deriving DecidableEq, Repr

/-- `TokenPair` from `auth.rs`. -/
structure TokenPair where
  access_token : SignedToken
  refresh_token : SignedToken
  expires_in : ℕ
deriving DecidableEq, Repr

/-- `TokenPairResponse` from `protocol.rs`. -/
structure TokenPairResponse where
  access_token : SignedToken
  refresh_token : SignedToken
  expires_in : ℕ
deriving DecidableEq, Repr

/-- Hints for client behavior based on server load (`LoadHint`). -/
inductive LoadHint where
  | throttleTransfers
  | generateThumbnailsLocally
  | searchLocally
  | recovering
deriving DecidableEq, Repr

/-- Server resource load (`ServerLoad`). CPU percent is `ℚ` (source: `f32`). -/
structure ServerLoad where
  cpu_percent : ℚ
  ram_free_mb : ℕ
  io_busy : Bool
  hints : List LoadHint
deriving DecidableEq, Repr

/-- Client capabilities for offload decisions (`ClientCapabilities`). -/
structure ClientCapabilities where
  cpu_cores : ℕ
  has_gpu : Bool
  ram_free_mb : ℕ
  on_ac_power : Bool
  can_generate_thumbnails : Bool
  can_search_locally : Bool
  can_compress : Bool
deriving DecidableEq, Repr

/-- File entry in directory listing (`FileEntryResponse`). -/
structure FileEntryResponse where
  name : String
  path : String
  is_dir : Bool
  size : ℕ
  modified : ℤ
  mime_type : Option String
deriving DecidableEq, Repr

/-- Task to offload to a capable client (`OffloadTask`). -/
inductive OffloadTask where
  | thumbnail (path : String) (source : List ℕ) (width height : ℕ)
  | search (query : String) (paths : List String)
deriving DecidableEq, Repr

/-- File system event for real-time sync (`FsEvent`). The Rust fields of
`Renamed` are named `from`/`to`; `from` is a Lean keyword so they appear here
as `src`/`dst`. -/
inductive FsEvent where
  | created (path : String) (is_dir : Bool)
  | modified (path : String)
  | deleted (path : String)
  | renamed (src dst : String)
deriving DecidableEq, Repr

/-- Messages sent from server to client (`ServerMessage`). -/
inductive ServerMessage where
  | authSuccess (tokens : TokenPairResponse)
  | authError (message : String)
  | dirListing (path : String) (entries : List FileEntryResponse)
  | fileContent (path : String) (content : List ℕ) (mime_type : Option String)
  | opSuccess (op path : String)
  | opError (op path message : String)
  | load (l : ServerLoad)
  | offloadRequest (task_id : String) (task : OffloadTask)
  | fsEvent (e : FsEvent)
  | pong
  | error (message : String)
deriving DecidableEq, Repr

/-- Messages sent from client to server (`ClientMessage`). The Rust fields of
`Rename` are named `from`/`to`; here `src`/`dst`. -/
inductive ClientMessage where
  | login (username password : String)
  | refreshToken (refresh_token : SignedToken)
  | listDir (path : String)
  | download (path : String)
  | upload (path : String) (content : List ℕ)
  | delete (path : String)
  | rename (src dst : String)
  | mkdir (path : String)
  | capabilities (caps : ClientCapabilities)
  | offloadResult (task_id : String) (result : List ℕ)
  | ping
deriving DecidableEq, Repr

/-! ## Load probe (`pibox-server/src/load.rs`) -/

/-- `CPU_HIGH_THRESHOLD: f32 = 80.0`. -/
def CPU_HIGH_THRESHOLD : ℚ := 80

/-- `CPU_CRITICAL_THRESHOLD: f32 = 95.0`. -/
def CPU_CRITICAL_THRESHOLD : ℚ := 95

/-- `RAM_LOW_MB: u64 = 100`. -/
def RAM_LOW_MB : ℕ := 100

/-- `RAM_CRITICAL_MB: u64 = 50`. -/
def RAM_CRITICAL_MB : ℕ := 50

/-- `generate_hints` from `load.rs`: sequential pushes into a vector,
rendered as the concatenation of the CPU if/else-if block and the RAM
if/else-if block. -/
def generate_hints (cpu_percent : ℚ) (ram_free_mb : ℕ) : List LoadHint :=
  (if CPU_CRITICAL_THRESHOLD ≤ cpu_percent then
      [LoadHint.throttleTransfers, LoadHint.generateThumbnailsLocally,
       LoadHint.searchLocally, LoadHint.recovering]
    else if CPU_HIGH_THRESHOLD ≤ cpu_percent then
      [LoadHint.throttleTransfers, LoadHint.generateThumbnailsLocally]
    else [])
  ++
  (if ram_free_mb ≤ RAM_CRITICAL_MB then
      [LoadHint.throttleTransfers, LoadHint.recovering]
    else if ram_free_mb ≤ RAM_LOW_MB then
      [LoadHint.searchLocally]
    else [])

/-! ## Token authority (`pibox-core/src/auth.rs`) -/

/-- Errors of the `jsonwebtoken` library relevant to this code path
(`ErrorKind::InvalidSignature`, `ErrorKind::ExpiredSignature`); other
malformed-token kinds are collapsed into `invalidSignatureErr` since the
model only produces well-formed tokens. -/
inductive JwtError where
  | invalidSignatureErr
  | expiredSignatureErr
deriving DecidableEq, Repr

/-- `AuthError` from `auth.rs`. `encodingError` wraps a library error
(the `#[from] jsonwebtoken::errors::Error` variant). -/
inductive AuthError where
  | encodingError (e : JwtError)
  | tokenExpired
  | invalidTokenType (expected got : TokenType)
  | invalidCredentials
deriving DecidableEq, Repr

/-- `JwtAuth` from `auth.rs`. One secret signs and verifies (the Rust code
derives both the encoding and decoding key from the same secret), so a
single `key` field models both. TTLs are in seconds. -/
structure JwtAuth where
  key : ℕ
  access_token_ttl : ℕ
  refresh_token_ttl : ℕ
deriving DecidableEq, Repr

/-- `JwtAuth::new`: defaults 900 s (access) and 604800 s (refresh). -/
def JwtAuth.new (secret : ℕ) (access_ttl refresh_ttl : Option ℕ) : JwtAuth :=
  { key := secret
    access_token_ttl := access_ttl.getD 900
    refresh_token_ttl := refresh_ttl.getD 604800 }

/-- `jsonwebtoken::encode`: sign the claims with the key. -/
def encodeToken (key : ℕ) (c : Claims) : SignedToken :=
  { claims := c, key := key }

/-- `jsonwebtoken::decode` with `Validation::default()`: checks the
signature, then the `exp` claim with the default 60 s leeway. -/
def libDecodeToken (key : ℕ) (now : ℕ) (t : SignedToken) : Except JwtError Claims :=
  if t.key ≠ key then Except.error JwtError.invalidSignatureErr
  else if t.claims.exp + 60 < now then Except.error JwtError.expiredSignatureErr
  else Except.ok t.claims

/-- `JwtAuth::decode_token`: library decode (errors wrapped via `?` into
`AuthError::EncodingError`), then the explicit `exp < now` check. -/
def JwtAuth.decode_token (a : JwtAuth) (now : ℕ) (t : SignedToken) :
    Except AuthError Claims :=
  match libDecodeToken a.key now t with
  | Except.error e => Except.error (AuthError.encodingError e)
  | Except.ok c =>
      if c.exp < now then Except.error AuthError.tokenExpired
      else Except.ok c

/-- `JwtAuth::generate_tokens`. The Rust function returns `Result` but can
fail only on a signing-library failure, which the signature model cannot
produce, so the model is total. `now` is the sampled system time. -/
def JwtAuth.generate_tokens (a : JwtAuth) (username : String)
    (device_id : Option String) (now : ℕ) : TokenPair :=
  { access_token := encodeToken a.key
      { sub := username, exp := now + a.access_token_ttl, iat := now
        token_type := TokenType.access, device_id := device_id }
    refresh_token := encodeToken a.key
      { sub := username, exp := now + a.refresh_token_ttl, iat := now
        token_type := TokenType.refresh, device_id := device_id }
    expires_in := a.access_token_ttl }

/-- `JwtAuth::verify_access_token`. -/
def JwtAuth.verify_access_token (a : JwtAuth) (now : ℕ) (t : SignedToken) :
    Except AuthError Claims :=
  match a.decode_token now t with
  | Except.error e => Except.error e
  | Except.ok c =>
      if c.token_type ≠ TokenType.access then
        Except.error (AuthError.invalidTokenType TokenType.access c.token_type)
      else Except.ok c

/-- `JwtAuth::refresh_tokens`. -/
def JwtAuth.refresh_tokens (a : JwtAuth) (now : ℕ) (t : SignedToken) :
    Except AuthError TokenPair :=
  match a.decode_token now t with
  | Except.error e => Except.error e
  | Except.ok c =>
      if c.token_type ≠ TokenType.refresh then
        Except.error (AuthError.invalidTokenType TokenType.refresh c.token_type)
      else Except.ok (a.generate_tokens c.sub c.device_id now)

/-! ## Shared server state (`pibox-server/src/state.rs`) -/

/-- `ConnectedClient` from `state.rs`. Its `sender: broadcast::Sender` is the
sending half of the per-client channel created in `register_client`; the
channel is modelled by the pending queues of its receivers
(`senderQueues`). -/
structure ConnectedClient where
  id : String
  username : String
  capabilities : Option ClientCapabilities
  senderQueues : List (List ServerMessage)
deriving DecidableEq, Repr

/-- `AppState` from `state.rs`. The `fb_client: FilebrowserClient` field is
an external HTTP handle and does not appear in the model (handlers receive
backend results as oracles); `event_tx` is modelled by `eventQueues`, the
pending queues of the event channel's subscribers. -/
structure AppState where
  jwt_auth : JwtAuth
  clients : List (String × ConnectedClient)
  load : ServerLoad
  max_concurrent_transfers : ℕ
  active_transfers : ℕ
  load_report_interval : ℕ
  eventQueues : List (List ServerMessage)
deriving DecidableEq, Repr

/-- `AppState::new`: empty registry, zero load, zero active transfers. The
`broadcast::channel(100)` call's initial receiver is dropped immediately, so
the event channel starts with no subscribers. -/
def AppState.new (jwt_auth : JwtAuth) (max_concurrent_transfers : ℕ)
    (load_report_interval : ℕ) : AppState :=
  { jwt_auth := jwt_auth
    clients := []
    load := { cpu_percent := 0, ram_free_mb := 0, io_busy := false, hints := [] }
    max_concurrent_transfers := max_concurrent_transfers
    active_transfers := 0
    load_report_interval := load_report_interval
    eventQueues := [] }

/-- Sending on a tokio `broadcast` channel with capacity `cap`: the message
is appended to a subscriber's queue; if the queue is full the oldest
pending message is dropped (the receiver lags). -/
def chanPush (cap : ℕ) (msg : ServerMessage) (q : List ServerMessage) :
    List ServerMessage :=
  if q.length < cap then q ++ [msg] else q.drop 1 ++ [msg]

/-- A handle to a receiver created by `register_client`: the id of the
client owning the channel and the index of the receiver in its queue list. -/
structure ClientReceiver where
  client_id : String
  idx : ℕ
deriving DecidableEq, Repr

/-- `AppState::register_client`: creates a fresh `broadcast::channel(32)`,
stores the sender inside the inserted `ConnectedClient`, and returns the
receiver. `HashMap::insert` replaces an existing entry with the same key. -/
def AppState.register_client (s : AppState) (id username : String) :
    AppState × ClientReceiver :=
  ({ s with clients :=
      (id, { id := id, username := username, capabilities := none
             senderQueues := [[]] }) ::
        s.clients.filter (fun p => p.1 ≠ id) },
   { client_id := id, idx := 0 })

/-- `AppState::unregister_client`. -/
def AppState.unregister_client (s : AppState) (id : String) : AppState :=
  { s with clients := s.clients.filter (fun p => p.1 ≠ id) }

/-- `AppState::update_client_capabilities`: no-op when the id is unknown. -/
def AppState.update_client_capabilities (s : AppState) (id : String)
    (caps : ClientCapabilities) : AppState :=
  { s with clients := s.clients.map (fun p =>
      if p.1 = id then (p.1, { p.2 with capabilities := some caps }) else p) }

/-- `AppState::can_start_transfer`. -/
def AppState.can_start_transfer (s : AppState) : Bool :=
  s.active_transfers < s.max_concurrent_transfers

/-- `AppState::start_transfer`: atomic check-and-increment (the Rust method
takes `&mut self` under the state lock). Returns the new state and the
boolean the Rust function returns. -/
def AppState.start_transfer (s : AppState) : AppState × Bool :=
  if s.can_start_transfer then
    ({ s with active_transfers := s.active_transfers + 1 }, true)
  else (s, false)

/-- `AppState::end_transfer`: decrement, floored at 0. -/
def AppState.end_transfer (s : AppState) : AppState :=
  if 0 < s.active_transfers then
    { s with active_transfers := s.active_transfers - 1 }
  else s

/-- `AppState::broadcast`: send on `event_tx` (capacity 100); the send
result is discarded (`let _ = ...`). Only the event channel's subscriber
queues change; the per-client channels created by `register_client` are not
touched. -/
def AppState.broadcast (s : AppState) (msg : ServerMessage) : AppState :=
  { s with eventQueues := s.eventQueues.map (chanPush 100 msg) }

/-- `event_tx.subscribe()` as performed by the WebSocket handler: a new
empty queue joins the event channel; the returned index identifies it. -/
def AppState.subscribe_events (s : AppState) : AppState × ℕ :=
  ({ s with eventQueues := s.eventQueues ++ [[]] }, s.eventQueues.length)

/-- The pending queue of the receiver returned by `register_client`. -/
def AppState.clientReceiverQueue (s : AppState) (r : ClientReceiver) :
    Option (List ServerMessage) :=
  match (s.clients.filter (fun p => p.1 = r.client_id)).head? with
  | some p => p.2.senderQueues.get? r.idx
  | none => none

/-! ## Transfer-operation sequences (for the counter invariant) -/

/-- An element of an interleaving of `start_transfer`/`end_transfer` calls.
`stop` models `end_transfer` (`end` is a Lean keyword). -/
inductive TransferOp where
  | start
  | stop
deriving DecidableEq, Repr

/-- Apply one transfer operation to the state (the returned boolean of
`start_transfer` is dropped here; it is examined separately). -/
def AppState.applyTransferOp (s : AppState) : TransferOp → AppState
  | TransferOp.start => s.start_transfer.1
  | TransferOp.stop => s.end_transfer

/-- Run a finite sequence of transfer operations. -/
def AppState.runTransferOps (s : AppState) (ops : List TransferOp) : AppState :=
  ops.foldl AppState.applyTransferOp s

/-! ## Session handlers (`pibox-server/src/handlers.rs`) -/

/-- `wait_for_auth` from `handlers.rs`. The argument is the sequence of
parsed client messages the stream delivers before it ends; frames that do
not parse as a `ClientMessage` are skipped by the Rust loop exactly like
parsed non-login messages, so they are not represented. Reaching the end of
the list models both the 30 s timeout and the peer closing the stream. The
Rust loop skips any message that is not a login with non-empty username and
password, and keeps waiting. -/
def wait_for_auth : List ClientMessage → Option String
  | [] => none
  | ClientMessage.login u p :: rest =>
      if u ≠ "" ∧ p ≠ "" then some u else wait_for_auth rest
  | _ :: rest => wait_for_auth rest

/-- The authentication phase of `handle_websocket` (`handlers.rs`, lines
77–113): run `wait_for_auth`; on failure send
`AuthError { message: "Authentication required" }` and return (connection
closes); on success register the client and proceed to the dispatch loop
without sending any message. Returns the state after the phase, the
authenticated username with the receiver `register_client` returned (`none`
on failure), and the list of messages sent to the peer during the phase. -/
def handle_websocket_auth (s : AppState) (client_id : String)
    (msgs : List ClientMessage) :
    AppState × Option (String × ClientReceiver) × List ServerMessage :=
  match wait_for_auth msgs with
  | none => (s, none, [ServerMessage.authError "Authentication required"])
  | some username =>
      let r := s.register_client client_id username
      (r.1, some (username, r.2), [])

/-- The `Download` arm of `handle_client_message` (`handlers.rs`, lines
246–282). `backend` is the oracle for `fb_client.download(&path)`; the
error is carried as its display string. -/
def handle_download (s : AppState) (path : String)
    (backend : Except String (List ℕ)) : AppState × ServerMessage :=
  let r := s.start_transfer
  if r.2 then
    let s2 := r.1.end_transfer
    match backend with
    | Except.ok content => (s2, ServerMessage.fileContent path content none)
    | Except.error e => (s2, ServerMessage.opError "download" path e)
  else
    (r.1, ServerMessage.opError "download" path "Too many concurrent transfers")

/-- The `Upload` arm of `handle_client_message` (`handlers.rs`, lines
284–327). `backend` is the oracle for `fb_client.upload(&path, &content,
true)`. On success a `FsEvent::Created` broadcast precedes the reply. -/
def handle_upload (s : AppState) (path : String) (_content : List ℕ)
    (backend : Except String Unit) : AppState × ServerMessage :=
  let r := s.start_transfer
  if r.2 then
    let s2 := r.1.end_transfer
    match backend with
    | Except.ok _ =>
        (s2.broadcast (ServerMessage.fsEvent (FsEvent.created path false)),
         ServerMessage.opSuccess "upload" path)
    | Except.error e => (s2, ServerMessage.opError "upload" path e)
  else
    (r.1, ServerMessage.opError "upload" path "Too many concurrent transfers")

/-! ## Base64 (`base64_bytes` in `pibox-core/src/protocol.rs`)

The serializer uses `base64::engine::general_purpose::STANDARD`: the RFC
4648 standard alphabet with canonical padding required on decode and
trailing bits rejected. -/

/-- The RFC 4648 standard alphabet. -/
def base64Alphabet : List Char :=
  "ABCDEFGHIJKLMNOPQRSTUVWXYZabcdefghijklmnopqrstuvwxyz0123456789+/".toList

/-- The character encoding a 6-bit group. -/
def encodeB64Char (n : ℕ) : Char :=
  base64Alphabet.getD n '?'

/-- The 6-bit group a character decodes to; `none` for characters outside
the standard alphabet (including the padding character). -/
def decodeB64Char (c : Char) : Option ℕ :=
  let i := base64Alphabet.indexOf c
  if i < 64 then some i else none

/-- Standard base64 encoding of a byte sequence, with padding, processing
three bytes into four characters per step. -/
def b64encode : List ℕ → List Char
  | [] => []
  | [b0] =>
      [encodeB64Char (b0 / 4), encodeB64Char (b0 % 4 * 16), '=', '=']
  | [b0, b1] =>
      [encodeB64Char (b0 / 4), encodeB64Char (b0 % 4 * 16 + b1 / 16),
       encodeB64Char (b1 % 16 * 4), '=']
  | b0 :: b1 :: b2 :: rest =>
      encodeB64Char (b0 / 4) :: encodeB64Char (b0 % 4 * 16 + b1 / 16) ::
        encodeB64Char (b1 % 16 * 4 + b2 / 64) :: encodeB64Char (b2 % 64) ::
          b64encode rest

/-- Standard base64 decoding: four characters at a time; padding allowed
only at the end of the input, in canonical form, with zero trailing bits
(the `STANDARD` engine's `RequireCanonical` padding mode with
`decode_allow_trailing_bits = false`). Any other input is rejected. -/
def b64decode : List Char → Option (List ℕ)
  | [] => some []
  | c0 :: c1 :: c2 :: c3 :: rest =>
      match decodeB64Char c0, decodeB64Char c1 with
      | some s0, some s1 =>
          if c2 = '=' then
            if c3 = '=' ∧ rest = [] ∧ s1 % 16 = 0 then
              some [s0 * 4 + s1 / 16]
            else none
          else
            match decodeB64Char c2 with
            | some s2 =>
                if c3 = '=' then
                  if rest = [] ∧ s2 % 4 = 0 then
                    some [s0 * 4 + s1 / 16, s1 % 16 * 16 + s2 / 4]
                  else none
                else
                  match decodeB64Char c3 with
                  | some s3 =>
                      (b64decode rest).map (fun bs =>
                        (s0 * 4 + s1 / 16) :: (s1 % 16 * 16 + s2 / 4) ::
                          (s2 % 4 * 64 + s3) :: bs)
                  | none => none
            | none => none
      | _, _ => none
  | _ => none


/-! ## Theorems

Helper lemmas first (characterizations of hint membership, the transfer
counter step, and base64 chunk facts), then one theorem per claim with its
witness or counterexample. -/

/-- Membership characterization: `throttle_transfers` is emitted iff the CPU
is at or above the high threshold or free RAM is at or below critical. -/
theorem mem_generate_hints_throttle (c : ℚ) (r : ℕ) :
    LoadHint.throttleTransfers ∈ generate_hints c r ↔ (80 ≤ c ∨ r ≤ 50) := by
  simp only [generate_hints, CPU_CRITICAL_THRESHOLD, CPU_HIGH_THRESHOLD,
    RAM_CRITICAL_MB, RAM_LOW_MB, List.mem_append]
  split_ifs <;> simp_all
  all_goals first
    | linarith
    | omega
    | (left; linarith)
    | (right; omega)
    | (constructor <;> intro hx <;>
        first | linarith | omega | (left; linarith) | (right; omega) | tauto)
    | (intro hx; first | linarith | omega | (left; linarith) | (right; omega) | tauto)

/-- Membership characterization: `generate_thumbnails_locally` is emitted
iff the CPU is at or above the high threshold. -/
theorem mem_generate_hints_thumbs (c : ℚ) (r : ℕ) :
    LoadHint.generateThumbnailsLocally ∈ generate_hints c r ↔ 80 ≤ c := by
  simp only [generate_hints, CPU_CRITICAL_THRESHOLD, CPU_HIGH_THRESHOLD,
    RAM_CRITICAL_MB, RAM_LOW_MB, List.mem_append]
  split_ifs <;> simp_all
  all_goals first
    | linarith
    | omega
    | (left; linarith)
    | (right; omega)
    | (constructor <;> intro hx <;>
        first | linarith | omega | (left; linarith) | (right; omega) | tauto)
    | (intro hx; first | linarith | omega | (left; linarith) | (right; omega) | tauto)

/-- Membership characterization: `search_locally` is emitted iff the CPU is
critical, or free RAM is in the low (but not critical) band. -/
theorem mem_generate_hints_search (c : ℚ) (r : ℕ) :
    LoadHint.searchLocally ∈ generate_hints c r ↔ (95 ≤ c ∨ (50 < r ∧ r ≤ 100)) := by
  simp only [generate_hints, CPU_CRITICAL_THRESHOLD, CPU_HIGH_THRESHOLD,
    RAM_CRITICAL_MB, RAM_LOW_MB, List.mem_append]
  split_ifs <;> simp_all
  all_goals first
    | linarith
    | omega
    | (left; linarith)
    | (right; omega)
    | (constructor <;> intro hx <;>
        first | linarith | omega | (left; linarith) | (right; omega) | tauto)
    | (intro hx; first | linarith | omega | (left; linarith) | (right; omega) | tauto)

/-- Membership characterization: `recovering` is emitted iff the CPU is
critical or free RAM is at or below critical. -/
theorem mem_generate_hints_recovering (c : ℚ) (r : ℕ) :
    LoadHint.recovering ∈ generate_hints c r ↔ (95 ≤ c ∨ r ≤ 50) := by
  simp only [generate_hints, CPU_CRITICAL_THRESHOLD, CPU_HIGH_THRESHOLD,
    RAM_CRITICAL_MB, RAM_LOW_MB, List.mem_append]
  split_ifs <;> simp_all
  all_goals first
    | linarith
    | omega
    | (left; linarith)
    | (right; omega)
    | (constructor <;> intro hx <;>
        first | linarith | omega | (left; linarith) | (right; omega) | tauto)
    | (intro hx; first | linarith | omega | (left; linarith) | (right; omega) | tauto)

/-- C3 counterexample: RAM monotonicity fails. At CPU 0, `search_locally` is
produced at free RAM 100 MB but not at the lower value 50 MB (where the
critical-RAM branch takes over and emits different hints), even though
50 ≤ 100. -/
theorem c3_counterexample :
    (50:ℕ) ≤ 100 ∧ LoadHint.searchLocally ∈ generate_hints 0 100 ∧
      LoadHint.searchLocally ∉ generate_hints 0 50 := by decide

/-- C3 (amended): the hint set is monotone in CPU (for fixed RAM, any hint
produced at CPU `c1` is produced at any CPU `c2 ≥ c1`), and for fixed CPU,
decreasing RAM preserves every hint except `search_locally`, which is
dropped when free RAM falls from the low band (50, 100] to the critical
band ≤ 50. -/
theorem c3_load_hint_monotonicity :
    (∀ (c1 c2 : ℚ) (r : ℕ) (x : LoadHint),
        c1 ≤ c2 → x ∈ generate_hints c1 r → x ∈ generate_hints c2 r)
    ∧ (∀ (c : ℚ) (r1 r2 : ℕ) (x : LoadHint), r2 ≤ r1 → x ≠ LoadHint.searchLocally →
        x ∈ generate_hints c r1 → x ∈ generate_hints c r2) := by
  constructor
  · intro c1 c2 r x hc hx
    cases x
    case generateThumbnailsLocally =>
      rw [mem_generate_hints_thumbs] at hx ⊢
      linarith
    case throttleTransfers =>
      rw [mem_generate_hints_throttle] at hx ⊢
      rcases hx with h | h
      · left; linarith
      · right; exact h
    case searchLocally =>
      rw [mem_generate_hints_search] at hx ⊢
      rcases hx with h | h
      · left; linarith
      · right; exact h
    case recovering =>
      rw [mem_generate_hints_recovering] at hx ⊢
      rcases hx with h | h
      · left; linarith
      · right; exact h
  · intro c r1 r2 x hr hxne hx
    cases x
    case searchLocally => exact absurd rfl hxne
    all_goals
      simp only [mem_generate_hints_throttle, mem_generate_hints_thumbs,
        mem_generate_hints_recovering] at hx ⊢
    case generateThumbnailsLocally => exact hx
    all_goals rcases hx with h | h
    all_goals first | (left; linarith) | (right; omega)

/-- Witness for C3 (amended), applied at CPU values 80 ≤ 96 with RAM 40. -/
theorem c3_witness : LoadHint.throttleTransfers ∈ generate_hints 96 40 :=
  c3_load_hint_monotonicity.1 80 96 40 LoadHint.throttleTransfers (by norm_num) (by decide)

/-- C4 counterexample: at CPU 96 %, free RAM 40 MB, the hint list contains
duplicates (both the critical-CPU branch and the critical-RAM branch push
`throttle_transfers` and `recovering`), so it is not duplicate-free and is
not the four-element list the claim states. -/
theorem c4_counterexample :
    ¬ (generate_hints 96 40).Nodup ∧
      generate_hints 96 40 ≠ [LoadHint.throttleTransfers, LoadHint.generateThumbnailsLocally,
        LoadHint.searchLocally, LoadHint.recovering] := by decide

/-- C4 (amended): `generate_hints` performs no duplicate removal. At CPU 96,
free RAM 40 it returns the six-element concatenation of the critical-CPU
block and the critical-RAM block; removing duplicates while keeping first
occurrences yields exactly the four hints the claim lists, in that order. -/
theorem c4_hint_list_at_critical :
    generate_hints 96 40 = [LoadHint.throttleTransfers, LoadHint.generateThumbnailsLocally,
        LoadHint.searchLocally, LoadHint.recovering, LoadHint.throttleTransfers,
        LoadHint.recovering]
    ∧ (generate_hints 96 40).eraseDups = [LoadHint.throttleTransfers,
        LoadHint.generateThumbnailsLocally, LoadHint.searchLocally, LoadHint.recovering] := by
  decide

/-- Helper: one transfer operation does not change the configured maximum. -/
theorem applyTransferOp_max (s : AppState) (op : TransferOp) :
    (s.applyTransferOp op).max_concurrent_transfers = s.max_concurrent_transfers := by
  cases op <;>
    simp only [AppState.applyTransferOp, AppState.start_transfer, AppState.end_transfer,
      AppState.can_start_transfer] <;>
    split_ifs <;> rfl

/-- Helper: one transfer operation preserves the counter bound. -/
theorem applyTransferOp_le (s : AppState) (op : TransferOp)
    (h : s.active_transfers ≤ s.max_concurrent_transfers) :
    (s.applyTransferOp op).active_transfers ≤ (s.applyTransferOp op).max_concurrent_transfers := by
  cases op <;>
    simp only [AppState.applyTransferOp, AppState.start_transfer, AppState.end_transfer,
      AppState.can_start_transfer, decide_eq_true_eq] <;>
    split_ifs <;> simp_all <;> omega

/-- Helper: the counter bound is an invariant of arbitrary operation
sequences, and the maximum never changes. -/
theorem runTransferOps_inv (ops : List TransferOp) (s : AppState)
    (h : s.active_transfers ≤ s.max_concurrent_transfers) :
    (s.runTransferOps ops).active_transfers ≤ (s.runTransferOps ops).max_concurrent_transfers ∧
      (s.runTransferOps ops).max_concurrent_transfers = s.max_concurrent_transfers := by
  induction ops generalizing s with
  | nil => exact ⟨h, rfl⟩
  | cons op rest ih =>
      simp only [AppState.runTransferOps, List.foldl_cons] at *
      obtain ⟨a, b⟩ := ih (s.applyTransferOp op) (applyTransferOp_le s op h)
      exact ⟨a, b.trans (applyTransferOp_max s op)⟩

/-- C1: starting from a fresh state with maximum `m`, after any finite
sequence of `start_transfer`/`end_transfer` calls the counter is at most `m`
(it is a `ℕ`, hence never below 0); moreover at every state `start_transfer`
returns `true` iff the counter is strictly below the maximum, increments
exactly when it returns `true`, leaves the state unchanged when it returns
`false`, and `end_transfer` decrements unless the counter is 0, in which
case it stays 0. -/
theorem c1_transfer_counter (jwt : JwtAuth) (m interval : ℕ) (ops : List TransferOp) :
    ((AppState.new jwt m interval).runTransferOps ops).active_transfers ≤ m
    ∧ (∀ s : AppState,
        (s.start_transfer.2 = true ↔ s.active_transfers < s.max_concurrent_transfers)
        ∧ (s.start_transfer.2 = true →
            s.start_transfer.1.active_transfers = s.active_transfers + 1)
        ∧ (s.start_transfer.2 = false → s.start_transfer.1 = s)
        ∧ (0 < s.active_transfers →
            s.end_transfer.active_transfers = s.active_transfers - 1)
        ∧ (s.active_transfers = 0 → s.end_transfer.active_transfers = 0)) := by
  constructor
  · have h0 : (AppState.new jwt m interval).active_transfers ≤
        (AppState.new jwt m interval).max_concurrent_transfers := by
      simp [AppState.new]
    obtain ⟨a, b⟩ := runTransferOps_inv ops (AppState.new jwt m interval) h0
    calc ((AppState.new jwt m interval).runTransferOps ops).active_transfers
        ≤ ((AppState.new jwt m interval).runTransferOps ops).max_concurrent_transfers := a
      _ = m := b
  · intro s
    refine ⟨?_, ?_, ?_, ?_, ?_⟩ <;>
      simp only [AppState.start_transfer, AppState.end_transfer,
        AppState.can_start_transfer, decide_eq_true_eq] <;>
      split_ifs <;> simp_all

/-- Witness for C1: three starts and one end against maximum 2 stay ≤ 2. -/
theorem c1_witness :
    ((AppState.new (JwtAuth.new 0 none none) 2 5).runTransferOps
      [TransferOp.start, TransferOp.start, TransferOp.start, TransferOp.stop]).active_transfers ≤ 2 :=
  (c1_transfer_counter (JwtAuth.new 0 none none) 2 5
    [TransferOp.start, TransferOp.start, TransferOp.start, TransferOp.stop]).1

/-- C9: both transfer-gated handler arms restore the counter on every path
(success and backend error), and when admission is rejected the state is
returned unmodified with the fixed "Too many concurrent transfers"
`op_error` reply. -/
theorem c9_transfer_frame (s : AppState) (path : String) (content : List ℕ)
    (dl : Except String (List ℕ)) (ul : Except String Unit) :
    (handle_download s path dl).1.active_transfers = s.active_transfers
    ∧ (handle_upload s path content ul).1.active_transfers = s.active_transfers
    ∧ (s.can_start_transfer = false →
        handle_download s path dl =
          (s, ServerMessage.opError "download" path "Too many concurrent transfers")
        ∧ handle_upload s path content ul =
          (s, ServerMessage.opError "upload" path "Too many concurrent transfers")) := by
  cases hc : s.can_start_transfer with
  | true =>
      have hs : s.start_transfer =
          ({ s with active_transfers := s.active_transfers + 1 }, true) := by
        simp [AppState.start_transfer, hc]
      refine ⟨?_, ?_, ?_⟩
      · cases dl <;> simp [handle_download, hs, AppState.end_transfer]
      · cases ul <;> simp [handle_upload, hs, AppState.end_transfer, AppState.broadcast]
      · intro h
        exact Bool.noConfusion h
  | false =>
      have hs : s.start_transfer = (s, false) := by
        simp [AppState.start_transfer, hc]
      refine ⟨?_, ?_, fun _ => ⟨?_, ?_⟩⟩
      · simp [handle_download, hs]
      · simp [handle_upload, hs]
      · simp [handle_download, hs]
      · simp [handle_upload, hs]

/-- Witness for C9: with maximum 0 the download is rejected and the state is
unchanged. -/
theorem c9_witness :
    handle_download (AppState.new (JwtAuth.new 0 none none) 0 5) "/a" (Except.ok []) =
      (AppState.new (JwtAuth.new 0 none none) 0 5,
        ServerMessage.opError "download" "/a" "Too many concurrent transfers") :=
  ((c9_transfer_frame (AppState.new (JwtAuth.new 0 none none) 0 5) "/a" []
      (Except.ok []) (Except.ok ())).2.2 (by decide)).1

/-- C5: verifying the access token of a freshly issued pair succeeds, as
long as verification happens no later than the access-token lifetime after
issue, and returns claims with the supplied subject and device id and the
access kind. -/
theorem c5_token_roundtrip (a : JwtAuth) (u : String) (d : Option String) (now now2 : ℕ)
    (hu : u ≠ "") (ht : now2 ≤ now + a.access_token_ttl) :
    a.verify_access_token now2 (a.generate_tokens u d now).access_token =
      Except.ok { sub := u, exp := now + a.access_token_ttl, iat := now,
                  token_type := TokenType.access, device_id := d } := by
  have h1 : ¬ (now + a.access_token_ttl + 60 < now2) := by omega
  have h2 : ¬ (now + a.access_token_ttl < now2) := by omega
  simp [JwtAuth.verify_access_token, JwtAuth.decode_token, JwtAuth.generate_tokens,
    encodeToken, libDecodeToken, h1, h2]

/-- Witness for C5 with a 60 s access TTL, issue at 1000, verify at 1030. -/
theorem c5_witness :
    ("alice" : String) ≠ "" ∧
    (1030:ℕ) ≤ 1000 + (JwtAuth.new 7 (some 60) none).access_token_ttl ∧
    (JwtAuth.new 7 (some 60) none).verify_access_token 1030
      ((JwtAuth.new 7 (some 60) none).generate_tokens "alice" (some "dev1") 1000).access_token =
      Except.ok { sub := "alice", exp := 1060, iat := 1000,
                  token_type := TokenType.access, device_id := some "dev1" } :=
  ⟨by decide, by decide,
    c5_token_roundtrip (JwtAuth.new 7 (some 60) none) "alice" (some "dev1") 1000 1030
      (by decide) (by decide)⟩

/-- C6: verifying the refresh token of a freshly issued pair as an access
token fails with the distinct wrong-kind error `InvalidTokenType` (not the
malformed/encoding error and not the expired error), for every username and
device id, whenever verification happens within the refresh lifetime. -/
theorem c6_cross_kind_rejection (a : JwtAuth) (u : String) (d : Option String) (now now2 : ℕ)
    (ht : now2 ≤ now + a.refresh_token_ttl) :
    a.verify_access_token now2 (a.generate_tokens u d now).refresh_token =
      Except.error (AuthError.invalidTokenType TokenType.access TokenType.refresh) := by
  have h1 : ¬ (now + a.refresh_token_ttl + 60 < now2) := by omega
  have h2 : ¬ (now + a.refresh_token_ttl < now2) := by omega
  simp [JwtAuth.verify_access_token, JwtAuth.decode_token, JwtAuth.generate_tokens,
    encodeToken, libDecodeToken, h1, h2]

/-- Witness for C6 with a 3600 s refresh TTL, issue at 100, verify at 500. -/
theorem c6_witness :
    (500:ℕ) ≤ 100 + (JwtAuth.new 3 none (some 3600)).refresh_token_ttl ∧
    (JwtAuth.new 3 none (some 3600)).verify_access_token 500
      ((JwtAuth.new 3 none (some 3600)).generate_tokens "bob" none 100).refresh_token =
      Except.error (AuthError.invalidTokenType TokenType.access TokenType.refresh) :=
  ⟨by decide,
    c6_cross_kind_rejection (JwtAuth.new 3 none (some 3600)) "bob" none 100 500 (by decide)⟩

/-- C2 counterexample: a connection whose first message is a valid login
(non-empty username and password) is authenticated, but the list of
messages the server sends before entering the dispatch loop is empty — no
`auth_success` message and no token pair is produced, contrary to the
claim. -/
theorem c2_counterexample :
    (handle_websocket_auth (AppState.new (JwtAuth.new 0 none none) 3 5) "c1"
      [ClientMessage.login "u" "p"]).2.2 = [] := by decide

/-- C2 (amended): on the first login message with non-empty username and
password the server registers the session under that username (receiving
the fresh per-client receiver) and enters the dispatch loop without sending
any message; the WebSocket login path issues no token pair (tokens are only
issued by the HTTP login endpoint and the refresh-token request). -/
theorem c2_ws_auth (s : AppState) (cid u p : String) (msgs : List ClientMessage)
    (hu : u ≠ "") (hp : p ≠ "") :
    (handle_websocket_auth s cid (ClientMessage.login u p :: msgs)).2.2 = []
    ∧ (handle_websocket_auth s cid (ClientMessage.login u p :: msgs)).2.1 =
        some (u, { client_id := cid, idx := 0 })
    ∧ (handle_websocket_auth s cid (ClientMessage.login u p :: msgs)).1 =
        (s.register_client cid u).1
    ∧ ((handle_websocket_auth s cid (ClientMessage.login u p :: msgs)).1.clients.filter
        (fun q => q.1 = cid)).head? =
        some (cid, { id := cid, username := u, capabilities := none,
                     senderQueues := [[]] }) := by
  have hw : wait_for_auth (ClientMessage.login u p :: msgs) = some u := by
    simp [wait_for_auth, hu, hp]
  refine ⟨?_, ?_, ?_, ?_⟩ <;>
    simp [handle_websocket_auth, hw, AppState.register_client]

/-- Witness for C2 (amended) at a concrete fresh state and login. -/
theorem c2_witness :
    (handle_websocket_auth (AppState.new (JwtAuth.new 0 none none) 3 5) "c1"
      [ClientMessage.login "usr" "pwd"]).2.1 =
      some ("usr", { client_id := "c1", idx := 0 }) :=
  (c2_ws_auth (AppState.new (JwtAuth.new 0 none none) 3 5) "c1" "usr" "pwd" []
    (by decide) (by decide)).2.1

/-- C8 counterexample: after a login with an empty password the server does
not send an auth-error and close; it keeps waiting and accepts the next
valid login (here `v`), sending nothing during the auth phase. -/
theorem c8_counterexample :
    wait_for_auth [ClientMessage.login "u" "", ClientMessage.login "v" "q"] = some "v"
    ∧ (handle_websocket_auth (AppState.new (JwtAuth.new 0 none none) 3 5) "c1"
        [ClientMessage.login "u" "", ClientMessage.login "v" "q"]).2.2 = [] := by decide

/-- C8 (amended): a login message with empty username or empty password is
skipped — the wait continues with the remaining messages — and only when
the stream ends without any valid login (30 s timeout or peer close) does
the server send the auth-error message and close. -/
theorem c8_empty_credentials (u p : String) (rest : List ClientMessage)
    (s : AppState) (cid : String) (msgs : List ClientMessage)
    (he : u = "" ∨ p = "") (hn : wait_for_auth msgs = none) :
    wait_for_auth (ClientMessage.login u p :: rest) = wait_for_auth rest
    ∧ handle_websocket_auth s cid msgs =
        (s, none, [ServerMessage.authError "Authentication required"]) := by
  constructor
  · simp only [wait_for_auth]
    rcases he with h | h <;> simp [h]
  · simp [handle_websocket_auth, hn]

/-- Witness for C8 (amended): an empty-username login is skipped, and a
stream with no valid login yields the auth-error reply. -/
theorem c8_witness :
    wait_for_auth [ClientMessage.login "" "p"] = wait_for_auth []
    ∧ handle_websocket_auth (AppState.new (JwtAuth.new 0 none none) 3 5) "c1" [] =
        (AppState.new (JwtAuth.new 0 none none) 3 5, none,
          [ServerMessage.authError "Authentication required"]) :=
  c8_empty_credentials "" "p" [] (AppState.new (JwtAuth.new 0 none none) 3 5) "c1" []
    (Or.inl rfl) (by decide)

/-- C7 counterexample: after registering a client and then broadcasting a
message, the pending queue of the receiver `register_client` returned is
still empty — `broadcast` sends on the separate event channel, not on the
per-client channel whose receiver `register_client` returns — even though
the session is registered at broadcast time. -/
theorem c7_counterexample :
    ((((AppState.new (JwtAuth.new 0 none none) 3 5).register_client "c1" "alice").1.broadcast
        ServerMessage.pong).clientReceiverQueue
      (((AppState.new (JwtAuth.new 0 none none) 3 5).register_client "c1" "alice").2)) = some []
    ∧ ((((AppState.new (JwtAuth.new 0 none none) 3 5).register_client "c1" "alice").1.broadcast
        ServerMessage.pong).clients.map Prod.fst) = ["c1"] := by decide

/-- C7 (amended): `register_client` inserts a session record with the given
id and username and returns a receiver of the session's own freshly created
channel (whose queue starts empty), leaving the event hub untouched;
`broadcast` enqueues the message to every subscriber queue of the event hub
(each existing subscriber receives it, and a subscriber freshly obtained
via `event_tx.subscribe` has exactly that message pending afterwards) and
touches neither the session registry nor the receiver `register_client`
returned, whose queue stays empty. -/
theorem c7_register_broadcast (s : AppState) (id username : String) (msg : ServerMessage) :
    ((s.register_client id username).1.clients.filter (fun p => p.1 = id)).head? =
        some (id, { id := id, username := username, capabilities := none,
                    senderQueues := [[]] })
    ∧ (s.register_client id username).2 = { client_id := id, idx := 0 }
    ∧ (s.register_client id username).1.eventQueues = s.eventQueues
    ∧ (s.broadcast msg).eventQueues = s.eventQueues.map (chanPush 100 msg)
    ∧ (∀ q ∈ s.eventQueues, msg ∈ chanPush 100 msg q)
    ∧ (s.broadcast msg).clients = s.clients
    ∧ (s.subscribe_events.1.broadcast msg).eventQueues =
        s.eventQueues.map (chanPush 100 msg) ++ [[msg]]
    ∧ ((s.register_client id username).1.broadcast msg).clientReceiverQueue
        (s.register_client id username).2 = some [] := by
  refine ⟨?_, rfl, rfl, rfl, ?_, rfl, ?_, ?_⟩
  · simp [AppState.register_client]
  · intro q hq
    simp only [chanPush]
    split_ifs <;> simp
  · simp [AppState.subscribe_events, AppState.broadcast, chanPush]
  · simp [AppState.register_client, AppState.broadcast, AppState.clientReceiverQueue]

/-- Witness for C7 (amended) at a concrete state. -/
theorem c7_witness :
    ((AppState.new (JwtAuth.new 0 none none) 3 5).register_client "c2" "bob").2 =
      { client_id := "c2", idx := 0 } :=
  (c7_register_broadcast (AppState.new (JwtAuth.new 0 none none) 3 5) "c2" "bob"
    ServerMessage.pong).2.1

set_option maxHeartbeats 1000000 in
/-- Helper: every 6-bit group decodes back from its alphabet character. -/
theorem decodeB64Char_encode_fin :
    ∀ n : Fin 64, decodeB64Char (encodeB64Char n.val) = some n.val := by decide

/-- Helper: `ℕ`-typed version of the character round trip. -/
theorem decodeB64Char_encode (n : ℕ) (h : n < 64) :
    decodeB64Char (encodeB64Char n) = some n :=
  decodeB64Char_encode_fin ⟨n, h⟩

/-- Helper: the padding character is outside the alphabet. -/
theorem decodeB64Char_pad : decodeB64Char '=' = none := by decide

/-- Helper: no alphabet character is the padding character. -/
theorem encodeB64Char_ne_pad (n : ℕ) (h : n < 64) : encodeB64Char n ≠ '=' := by
  intro he
  have h1 := decodeB64Char_encode n h
  rw [he, decodeB64Char_pad] at h1
  cases h1

/-- Helper: decoding the encoding of any byte list returns it unchanged. -/
theorem b64_roundtrip : ∀ (bs : List ℕ), (∀ b ∈ bs, b < 256) →
    b64decode (b64encode bs) = some bs
  | [], _ => rfl
  | [b0], h => by
      have hb : b0 < 256 := h b0 (by simp)
      simp only [b64encode, b64decode,
        decodeB64Char_encode (b0 / 4) (by omega),
        decodeB64Char_encode (b0 % 4 * 16) (by omega)]
      have h16 : b0 % 4 * 16 % 16 = 0 := by omega
      simp [h16]
      omega
  | [b0, b1], h => by
      have hb0 : b0 < 256 := h b0 (by simp)
      have hb1 : b1 < 256 := h b1 (by simp)
      simp only [b64encode, b64decode,
        decodeB64Char_encode (b0 / 4) (by omega),
        decodeB64Char_encode (b0 % 4 * 16 + b1 / 16) (by omega),
        decodeB64Char_encode (b1 % 16 * 4) (by omega)]
      have hne : encodeB64Char (b1 % 16 * 4) ≠ '=' := encodeB64Char_ne_pad _ (by omega)
      have h4 : b1 % 16 * 4 % 4 = 0 := by omega
      simp [hne, h4]
      constructor <;> omega
  | b0 :: b1 :: b2 :: rest, h => by
      have hb0 : b0 < 256 := h b0 (by simp)
      have hb1 : b1 < 256 := h b1 (by simp)
      have hb2 : b2 < 256 := h b2 (by simp)
      have ih := b64_roundtrip rest (fun b hb => h b (by simp [hb]))
      simp only [b64encode, b64decode,
        decodeB64Char_encode (b0 / 4) (by omega),
        decodeB64Char_encode (b0 % 4 * 16 + b1 / 16) (by omega),
        decodeB64Char_encode (b1 % 16 * 4 + b2 / 64) (by omega),
        decodeB64Char_encode (b2 % 64) (by omega)]
      have hne2 : encodeB64Char (b1 % 16 * 4 + b2 / 64) ≠ '=' :=
        encodeB64Char_ne_pad _ (by omega)
      have hne3 : encodeB64Char (b2 % 64) ≠ '=' := encodeB64Char_ne_pad _ (by omega)
      simp [hne2, hne3, ih]
      refine ⟨by omega, by omega, by omega⟩

/-- Helper: an input containing any character outside the standard alphabet
(other than the padding character) is rejected. -/
theorem b64decode_invalid : ∀ (cs : List Char) (c : Char), c ∈ cs →
    decodeB64Char c = none → c ≠ '=' → b64decode cs = none
  | [], c, hmem, _, _ => absurd hmem (List.not_mem_nil c)
  | [_], _, _, _, _ => rfl
  | [_, _], _, _, _, _ => rfl
  | [_, _, _], _, _, _, _ => rfl
  | c0 :: c1 :: c2 :: c3 :: rest, c, hmem, hdec, hne => by
      simp only [List.mem_cons] at hmem
      cases h0 : decodeB64Char c0 with
      | none => simp [b64decode, h0]
      | some s0 =>
        cases h1 : decodeB64Char c1 with
        | none => simp [b64decode, h0, h1]
        | some s1 =>
          by_cases hc2 : c2 = '='
          · have hmem2 : c = c3 ∨ c ∈ rest := by
              rcases hmem with he | he | he | he | he
              · subst he; rw [h0] at hdec; exact Option.noConfusion hdec
              · subst he; rw [h1] at hdec; exact Option.noConfusion hdec
              · subst he; exact absurd hc2 hne
              · exact Or.inl he
              · exact Or.inr he
            have hcond : ¬ (c3 = '=' ∧ rest = [] ∧ s1 % 16 = 0) := by
              rcases hmem2 with he | he
              · subst he; intro hk; exact hne hk.1
              · intro hk
                rw [hk.2.1] at he
                exact absurd he (List.not_mem_nil c)
            simp [b64decode, h0, h1, hc2, hcond]
          · cases h2 : decodeB64Char c2 with
            | none => simp [b64decode, h0, h1, hc2, h2]
            | some s2 =>
              by_cases hc3 : c3 = '='
              · have hmem3 : c ∈ rest := by
                  rcases hmem with he | he | he | he | he
                  · subst he; rw [h0] at hdec; exact Option.noConfusion hdec
                  · subst he; rw [h1] at hdec; exact Option.noConfusion hdec
                  · subst he; rw [h2] at hdec; exact Option.noConfusion hdec
                  · subst he; exact absurd hc3 hne
                  · exact he
                have hrest : rest ≠ [] := by
                  intro hr
                  rw [hr] at hmem3
                  exact absurd hmem3 (List.not_mem_nil c)
                have hcond : ¬ (rest = [] ∧ s2 % 4 = 0) := fun hk => hrest hk.1
                simp [b64decode, h0, h1, hc2, h2, hc3, hcond]
              · cases h3 : decodeB64Char c3 with
                | none => simp [b64decode, h0, h1, hc2, h2, hc3, h3]
                | some s3 =>
                  have hmem3 : c ∈ rest := by
                    rcases hmem with he | he | he | he | he
                    · subst he; rw [h0] at hdec; exact Option.noConfusion hdec
                    · subst he; rw [h1] at hdec; exact Option.noConfusion hdec
                    · subst he; rw [h2] at hdec; exact Option.noConfusion hdec
                    · subst he; rw [h3] at hdec; exact Option.noConfusion hdec
                    · exact he
                  have ih := b64decode_invalid rest c hmem3 hdec hne
                  simp [b64decode, h0, h1, hc2, h2, hc3, h3, ih]

/-- C10: the `base64_bytes` pair round-trips every byte vector (decoding
the standard-alphabet padded encoding returns the bytes unchanged), and
decoding rejects any string containing a character outside the standard
alphabet and padding. -/
theorem c10_base64_roundtrip :
    (∀ (bs : List ℕ), (∀ b ∈ bs, b < 256) → b64decode (b64encode bs) = some bs)
    ∧ (∀ (cs : List Char) (c : Char), c ∈ cs → decodeB64Char c = none → c ≠ '=' →
        b64decode cs = none) :=
  ⟨b64_roundtrip, b64decode_invalid⟩

/-- Witness for C10: the bytes of "Man" round-trip, and an input containing
the non-alphabet character `*` is rejected. -/
theorem c10_witness :
    b64decode (b64encode [77, 97, 110]) = some [77, 97, 110]
    ∧ b64decode ['T', 'Q', '*', '='] = none :=
  ⟨c10_base64_roundtrip.1 [77, 97, 110] (by decide),
   c10_base64_roundtrip.2 ['T', 'Q', '*', '='] '*' (by decide) (by decide) (by decide)⟩
